import Mathlib

/-!
Shallow embedding of `src/icloudpd/authentication.py`.

The module wraps session bootstrap (`pyicloud.PyiCloudService` construction
inside a `while True` loop that catches only the no-stored-password error),
regime dispatch on `requires_2fa` / `requires_2sa`, and the two interactive
verification flows `request_2fa` and `request_2sa`.

External effects (the session client, `click` prompts, `print`, the logger,
`sys.exit`) are modelled as an explicit event trace plus oracles:
the session-client constructor results are a list consumed per call, the
user's prompt answers are parameters, and the boolean network operations
(`send_verification_code`, `validate_verification_code`, `validate_2fa_code`)
are boolean-valued oracle functions.
-/

namespace ICloudPD

/-- A trusted-device record as consumed by `request_2sa`: a dict read with
`device.get("deviceName", ...)` and `device.get("phoneNumber")`; each key may
be absent. The spec calls the first key `displayName`. -/
structure Device where
  deviceName : Option String
  phoneNumber : Option String
deriving DecidableEq, Repr

/-- The `{}` placeholder device used when the synthetic menu entry is chosen. -/
def emptyDevice : Device := ⟨none, none⟩

/-- The observable facets of the `PyiCloudService` object that
`authenticate_` and the flows consult. -/
structure Session where
  requires2fa : Bool
  requires2sa : Bool
  trustedDevices : List Device
deriving DecidableEq, Repr

/-- The positional arguments of one `pyicloud.PyiCloudService(...)` call.
The constructor's positional parameters are `(domain, apple_id, password)`;
keyword arguments (`cookie_directory`, `client_id`, `china_mainland`) are the
same at every call site and carry no claim-relevant information, so they are
not recorded. -/
structure OpenCall where
  domainArg : String
  appleIdArg : String
  passwordArg : Option String
deriving DecidableEq, Repr

/-- The first call site, `PyiCloudService(domain, username, password, ...)`. -/
def firstOpenCall (domain username : String) (password : Option String) : OpenCall :=
  ⟨domain, username, password⟩

/-- The call site inside the `except` handler,
`PyiCloudService(username, password, ...)`: `domain` is omitted, so the two
positional arguments land in the `domain` and `apple_id` slots and the
`password` slot takes its default. -/
def retryOpenCall (username password : String) : OpenCall :=
  ⟨username, password, none⟩

/-- Failure kinds the session-client constructor can raise. Only
`noStoredPassword` (`PyiCloudNoStoredPasswordAvailableException`) is caught by
the code; every other exception is a single `otherError` family indexed by a
tag (bad credentials, network errors, ...). -/
inductive SCError where
  | noStoredPassword : SCError
  | otherError : Nat → SCError
deriving DecidableEq, Repr

/-- Result of one session-client constructor call. -/
inductive OpenResult where
  | ok : Session → OpenResult
  | err : SCError → OpenResult
deriving DecidableEq, Repr

/-- Observable events in program order. -/
inductive Event where
  | openCall : OpenCall → Event
  | promptPassword : Event
  | promptCode : Event
  | promptDeviceIndex : Nat → Nat → Nat → Event
  | printLine : String → Event
  | sendCode : Device → Event
  | validate2fa : String → Event
  | validateCode : Device → String → Event
  | logDebug : String → Event
  | logInfo : String → Event
  | logError : String → Event
deriving DecidableEq, Repr

/-- How the bootstrap `while True` loop ends: a session (with the final value
of the `password` variable), an uncaught exception, or `stuck` when the oracle
script or the user's prompt answers run out (modelling a run that blocks or is
outside the scripted behaviour). -/
inductive BootstrapResult where
  | ok : Session → Option String → BootstrapResult
  | raised : SCError → BootstrapResult
  | stuck : BootstrapResult
deriving DecidableEq, Repr

/-- The `while True` bootstrap loop of `authenticate_`: try the constructor;
on success `break`; on `PyiCloudNoStoredPasswordAvailableException` prompt for
the password (hidden input) and call the constructor again inside the handler
(unprotected, so any exception it raises propagates), then fall through to the
next loop iteration, which calls the constructor once more with the new
password. `oracle` scripts the constructor results in call order; `prompts`
scripts the user's password answers. -/
def bootstrapLoop (domain username : String) (password : Option String)
    (prompts : List String) (oracle : List OpenResult) :
    List Event × BootstrapResult :=
  match oracle, prompts with
  | [], _ => ([], .stuck)
  | .ok s :: _, _ =>
      ([.openCall (firstOpenCall domain username password)], .ok s password)
  | .err (.otherError t) :: _, _ =>
      ([.openCall (firstOpenCall domain username password)],
       .raised (.otherError t))
  | .err .noStoredPassword :: _, [] =>
      ([.openCall (firstOpenCall domain username password), .promptPassword],
       .stuck)
  | [.err .noStoredPassword], pwd :: _ =>
      ([.openCall (firstOpenCall domain username password), .promptPassword,
        .openCall (retryOpenCall username pwd)], .stuck)
  | .err .noStoredPassword :: .ok _ :: rest2, pwd :: prompts2 =>
      let next := bootstrapLoop domain username (some pwd) prompts2 rest2
      (.openCall (firstOpenCall domain username password) :: .promptPassword ::
        .openCall (retryOpenCall username pwd) :: next.1, next.2)
  | .err .noStoredPassword :: .err e :: _, pwd :: _ =>
      ([.openCall (firstOpenCall domain username password), .promptPassword,
        .openCall (retryOpenCall username pwd)], .raised e)

/-- How a verification flow ends: normal fall-through, `sys.exit(code)`, or an
index outside the device list (unreachable under the prompt's range check). -/
inductive FlowOutcome where
  | ok : FlowOutcome
  | exited : Nat → FlowOutcome
  | badIndex : FlowOutcome
deriving DecidableEq, Repr

/-- Error message logged when code verification fails (both flows). -/
def failVerifyMsg : String := "Failed to verify two-factor authentication code"

/-- Error message logged when code delivery fails. -/
def failSendMsg : String := "Failed to send two-factor authentication code"

/-- Success guidance notice of `request_2fa`; the source text is a longer
multi-line prose message, shortened here since no claim depends on it. -/
def info2faDone : String := "all set up until 2FA expires"

/-- Success guidance notice of `request_2sa`; shortened like `info2faDone`. -/
def info2saDone : String := "all set up until 2SA expires"

/-- `request_2fa`: prompt for a code, call `validate_2fa_code`; on failure log
an error and `sys.exit(1)`, on success log the guidance notice. -/
def request_2fa (code : String) (validate2faOk : String → Bool) :
    List Event × FlowOutcome :=
  if validate2faOk code then
    ([.promptCode, .validate2fa code, .logInfo info2faDone], .ok)
  else
    ([.promptCode, .validate2fa code, .logError failVerifyMsg], .exited 1)

/-- The string printed for device `d` at index `i`:
`"  %s: %s" % (i, device.get("deviceName", "SMS to %s" % device.get("phoneNumber")))`.
A missing `phoneNumber` renders as Python's `None`. -/
def menuLine (i : Nat) (d : Device) : String :=
  "  " ++ toString i ++ ": " ++
    (match d.deviceName with
     | some n => n
     | none => "SMS to " ++ (match d.phoneNumber with
                             | some p => p
                             | none => "None"))

/-- The synthetic last menu entry,
`f"  \x7bdevices_count\x7d: Enter two-factor authentication code"`. -/
def syntheticLine (n : Nat) : String :=
  "  " ++ toString n ++ ": Enter two-factor authentication code"

/-- The printed menu lines for a device list: one line per device at its
enumerated index, then the synthetic entry at index = list length. -/
def renderedMenuLines (devices : List Device) : List String :=
  (devices.enum.map fun p => menuLine p.1 p.2) ++ [syntheticLine devices.length]

/-- Menu events emitted when the device list is non-empty: the printed lines
followed by `click.prompt("Please choose an option:", default=0,
type=click.IntRange(0, devices_count))`, recorded with its default and
inclusive range. -/
def menuEvents (devices : List Device) : List Event :=
  (renderedMenuLines devices).map Event.printLine ++
    [.promptDeviceIndex 0 0 devices.length]

/-- `request_2sa`: fetch trusted devices; if non-empty, print the menu and
prompt for an index (scripted by `chosenIndex`, which the `IntRange` check
keeps in `[0, devices_count]`); if the index is the synthetic entry use the
`{}` device and skip delivery, otherwise send a code to the selected device,
exiting on delivery failure; then prompt for the code and validate, exiting on
validation failure. -/
def request_2sa (s : Session) (chosenIndex : Nat) (code : String)
    (sendOk : Device → Bool) (validateOk : Device → String → Bool) :
    List Event × FlowOutcome :=
  let devices := s.trustedDevices
  let devicesCount := devices.length
  let pre := if devicesCount > 0 then menuEvents devices else []
  let deviceIndex := if devicesCount > 0 then chosenIndex else 0
  if deviceIndex = devicesCount then
    if validateOk emptyDevice code then
      (pre ++ [.promptCode, .validateCode emptyDevice code, .logInfo info2saDone],
       .ok)
    else
      (pre ++ [.promptCode, .validateCode emptyDevice code, .logError failVerifyMsg],
       .exited 1)
  else
    match devices[deviceIndex]? with
    | none => (pre, .badIndex)
    | some d =>
      if sendOk d then
        if validateOk d code then
          (pre ++ [.sendCode d, .promptCode, .validateCode d code,
                   .logInfo info2saDone], .ok)
        else
          (pre ++ [.sendCode d, .promptCode, .validateCode d code,
                   .logError failVerifyMsg], .exited 1)
      else
        (pre ++ [.sendCode d, .logError failSendMsg], .exited 1)

/-- How `authenticate_` as a whole ends. -/
inductive AuthOutcome where
  | returned : Session → AuthOutcome
  | twoStepAuthRequired : String → AuthOutcome
  | exited : Nat → AuthOutcome
  | raisedClient : SCError → AuthOutcome
  | stuck : AuthOutcome
  | badIndex : AuthOutcome
deriving DecidableEq, Repr

/-- Lift a flow outcome to the function's outcome: a flow that falls through
lets `authenticate_` return the (same) `icloud` object. -/
def flowToAuth (s : Session) : FlowOutcome → AuthOutcome
  | .ok => .returned s
  | .exited n => .exited n
  | .badIndex => .badIndex

/-- Message of the `TwoStepAuthRequiredError` raised in the 2FA branch. -/
def strongRequiredMsg : String := "Two-factor authentication is required!"

/-- Message of the `TwoStepAuthRequiredError` raised in the 2SA branch. -/
def legacyRequiredMsg : String := "Two-step/two-factor authentication is required!"

/-- The dispatch after bootstrap: `if icloud.requires_2fa: ... elif
icloud.requires_2sa: ... return icloud`. In each challenge branch, if
`raise_error_on_2sa` then `TwoStepAuthRequiredError` is raised before any
logging, prompting or network call; otherwise an informational notice is
logged and the corresponding flow runs. -/
def postAuth (icloud : Session) (raiseErrorOn2sa : Bool) (chosenIndex : Nat)
    (code : String) (sendOk : Device → Bool)
    (validateOk : Device → String → Bool) (validate2faOk : String → Bool) :
    List Event × AuthOutcome :=
  if icloud.requires2fa then
    if raiseErrorOn2sa then
      ([], .twoStepAuthRequired strongRequiredMsg)
    else
      let r := request_2fa code validate2faOk
      (.logInfo strongRequiredMsg :: r.1, flowToAuth icloud r.2)
  else if icloud.requires2sa then
    if raiseErrorOn2sa then
      ([], .twoStepAuthRequired legacyRequiredMsg)
    else
      let r := request_2sa icloud chosenIndex code sendOk validateOk
      (.logInfo "Two-step authentication is required!" :: r.1,
       flowToAuth icloud r.2)
  else
    ([], .returned icloud)

/-- The whole of `authenticate_`: debug log, bootstrap loop, then regime
dispatch on the obtained session. -/
def authenticate_ (domain username : String) (password : Option String)
    (raiseErrorOn2sa : Bool) (prompts : List String) (oracle : List OpenResult)
    (chosenIndex : Nat) (code : String) (sendOk : Device → Bool)
    (validateOk : Device → String → Bool) (validate2faOk : String → Bool) :
    List Event × AuthOutcome :=
  let b := bootstrapLoop domain username password prompts oracle
  match b.2 with
  | .ok s _ =>
      let p := postAuth s raiseErrorOn2sa chosenIndex code sendOk validateOk
        validate2faOk
      (.logDebug "Authenticating..." :: (b.1 ++ p.1), p.2)
  | .raised e => (.logDebug "Authenticating..." :: b.1, .raisedClient e)
  | .stuck => (.logDebug "Authenticating..." :: b.1, .stuck)

/-- Is this a session-client constructor call? -/
def isOpenCall : Event → Bool
  | .openCall _ => true
  | _ => false

/-- Is this the hidden-input password prompt? -/
def isPasswordPrompt : Event → Bool
  | .promptPassword => true
  | _ => false

/-- Number of session-open calls in a trace. -/
def openCallCount (evs : List Event) : Nat :=
  (evs.filter isOpenCall).length

/-- Number of password prompts in a trace. -/
def passwordPromptCount (evs : List Event) : Nat :=
  (evs.filter isPasswordPrompt).length

/-- The events strictly after the first password prompt. -/
def eventsAfterFirstPasswordPrompt (evs : List Event) : List Event :=
  (evs.dropWhile fun e => !isPasswordPrompt e).drop 1

end ICloudPD

namespace ICloudPD

/-- A fully authenticated session requiring no challenge. -/
def sessionPlain : Session := ⟨false, false, []⟩

/-- The first example device of the spec's menu-rendering property. -/
def iphoneDevice : Device := ⟨some "iPhone", none⟩

/-- The second example device of the spec's menu-rendering property. -/
def smsDevice : Device := ⟨none, some "+15551234"⟩

/-- The spec's example device list. -/
def exampleDevices : List Device := [iphoneDevice, smsDevice]

/-- C1 (counterexample): with the Session Client signalling "no stored
secret" exactly once (on the first open call) and both later open calls
succeeding, the bootstrap loop prompts once but then makes TWO session-open
calls after the prompt — the in-handler retry and, because the handler falls
through to the next `while` iteration, a further constructor call — refuting
"no more than one extra session-open call is made after the prompt". -/
theorem C1_counterexample :
    passwordPromptCount
        (bootstrapLoop "icloud.com" "alice" none ["pw1"]
          [.err .noStoredPassword, .ok sessionPlain, .ok sessionPlain]).1 = 1
    ∧ ¬ (openCallCount (eventsAfterFirstPasswordPrompt
          (bootstrapLoop "icloud.com" "alice" none ["pw1"]
            [.err .noStoredPassword, .ok sessionPlain, .ok sessionPlain]).1) ≤ 1) := by
  decide

/-- C1 (amended): if the Session Client signals "no stored secret" exactly
once, on the first open call, bootstrap prompts exactly once and retries once
inside the handler with the newly obtained secret; if that handler retry
succeeds, the loop performs one further session-open call with the new secret
before returning, so two session-open calls follow the prompt. A second
consecutive "no stored secret" signal propagates and is not retried. -/
theorem C1_amended (domain username : String) (password : Option String)
    (pwd : String) (prompts : List String) (s2 s3 : Session)
    (rest : List OpenResult) :
    bootstrapLoop domain username password (pwd :: prompts)
        (.err .noStoredPassword :: .ok s2 :: .ok s3 :: rest)
      = ([.openCall (firstOpenCall domain username password), .promptPassword,
          .openCall (retryOpenCall username pwd),
          .openCall (firstOpenCall domain username (some pwd))],
         .ok s3 (some pwd))
    ∧ bootstrapLoop domain username password (pwd :: prompts)
        (.err .noStoredPassword :: .err .noStoredPassword :: rest)
      = ([.openCall (firstOpenCall domain username password), .promptPassword,
          .openCall (retryOpenCall username pwd)],
         .raised .noStoredPassword) := by
  constructor <;> simp [bootstrapLoop]

/-- C7 (counterexample): on the spec's example device list the rendered menu
is not the claimed one: the synthetic last entry is labelled
"Enter two-factor authentication code", not
"enter code already received automatically" (and every line carries a
two-space indent). -/
theorem C7_counterexample :
    renderedMenuLines exampleDevices
      ≠ ["0: iPhone", "1: SMS to +15551234",
         "2: enter code already received automatically"]
    ∧ (renderedMenuLines exampleDevices).getLast?
      ≠ some "  2: enter code already received automatically" := by
  decide

/-- C7 (amended): for a non-empty device list the menu shows each device at
its server-assigned index (two-space indented) with precedence "deviceName if
present, else SMS to phoneNumber", followed by one synthetic entry at index =
list length labelled "Enter two-factor authentication code"; the integer
prompt defaults to 0 with inclusive range [0, list length]. On the example
devices the menu is "  0: iPhone", "  1: SMS to +15551234",
"  2: Enter two-factor authentication code". -/
theorem C7_amended :
    renderedMenuLines exampleDevices
      = ["  0: iPhone", "  1: SMS to +15551234",
         "  2: Enter two-factor authentication code"]
    ∧ menuEvents exampleDevices
      = [.printLine "  0: iPhone", .printLine "  1: SMS to +15551234",
         .printLine "  2: Enter two-factor authentication code",
         .promptDeviceIndex 0 0 2]
    ∧ (∀ (i : Nat) (n : String) (p : Option String),
        menuLine i ⟨some n, p⟩ = "  " ++ toString i ++ ": " ++ n)
    ∧ (∀ (i : Nat) (p : String),
        menuLine i ⟨none, some p⟩ = "  " ++ toString i ++ ": " ++ ("SMS to " ++ p)) := by
  refine ⟨by decide, by decide, fun i n p => rfl, fun i p => rfl⟩

/-- C8: any session-client failure other than "no stored secret" propagates
unchanged with no prompt and no retry — whether it happens on the initial
open call or on the in-handler retry call — and `authenticate_` surfaces it
to the caller as-is. -/
theorem C8_other_errors_propagate (domain username : String)
    (password : Option String) (prompts : List String) (t : Nat)
    (rest : List OpenResult) :
    bootstrapLoop domain username password prompts (.err (.otherError t) :: rest)
      = ([.openCall (firstOpenCall domain username password)],
         .raised (.otherError t))
    ∧ (∀ (pwd : String) (prompts2 : List String) (rest2 : List OpenResult),
        bootstrapLoop domain username password (pwd :: prompts2)
            (.err .noStoredPassword :: .err (.otherError t) :: rest2)
          = ([.openCall (firstOpenCall domain username password), .promptPassword,
              .openCall (retryOpenCall username pwd)],
             .raised (.otherError t)))
    ∧ (∀ (r2sa : Bool) (ci : Nat) (code : String) (sendOk : Device → Bool)
          (valOk : Device → String → Bool) (v2fa : String → Bool),
        (authenticate_ domain username password r2sa prompts
            (.err (.otherError t) :: rest) ci code sendOk valOk v2fa).2
          = .raisedClient (.otherError t)) := by
  refine ⟨?_, fun pwd prompts2 rest2 => ?_, fun r2sa ci code sendOk valOk v2fa => ?_⟩
  · simp [bootstrapLoop]
  · simp [bootstrapLoop]
  · simp [authenticate_, bootstrapLoop]

/-- C10: the open call made inside the error handler after the password
prompt is `PyiCloudService(username, password, ...)` with the domain argument
omitted: the identity lands in the domain position, the newly obtained secret
in the identity position, and the password position takes its default; it is
never the original call with only the secret replaced. -/
theorem C10_retry_call_shifts_arguments (domain username : String)
    (password : Option String) (pwd : String) (prompts : List String)
    (r2 : OpenResult) (rest2 : List OpenResult) :
    ((bootstrapLoop domain username password (pwd :: prompts)
        (.err .noStoredPassword :: r2 :: rest2)).1.take 3
      = [.openCall (firstOpenCall domain username password), .promptPassword,
         .openCall (retryOpenCall username pwd)])
    ∧ retryOpenCall username pwd
      = { domainArg := username, appleIdArg := pwd, passwordArg := none }
    ∧ (∀ (d u p q : String), retryOpenCall u p ≠ firstOpenCall d u (some q)) := by
  refine ⟨?_, rfl, ?_⟩
  · cases r2 with
    | ok s => simp [bootstrapLoop]
    | err e => cases e <;> simp [bootstrapLoop]
  · intro d u p q h
    have hp := congrArg OpenCall.passwordArg h
    simp [retryOpenCall, firstOpenCall] at hp

end ICloudPD

namespace ICloudPD

/-- Events that belong to the legacy (2SA) flow machinery: device-menu
printing, the device-selection prompt, code delivery, and device-based
validation. -/
def isLegacyConsult : Event → Bool
  | .printLine _ => true
  | .promptDeviceIndex _ _ _ => true
  | .sendCode _ => true
  | .validateCode _ _ => true
  | _ => false

/-- C2: in non-interactive mode, a session requiring either verification
regime makes `authenticate_` raise `TwoStepAuthRequiredError` immediately:
the emitted trace is empty (zero prompts, zero network calls), and the two
branch messages are distinct, so the signal carries which regime triggered
it (the strong-regime message when `requires_2fa`, the legacy one
otherwise). -/
theorem C2_challenge_raised_noninteractive (s : Session) (ci : Nat)
    (code : String) (sendOk : Device → Bool) (valOk : Device → String → Bool)
    (v2fa : String → Bool)
    (h : s.requires2fa = true ∨ s.requires2sa = true) :
    postAuth s true ci code sendOk valOk v2fa
      = ([], .twoStepAuthRequired
          (if s.requires2fa then strongRequiredMsg else legacyRequiredMsg))
    ∧ strongRequiredMsg ≠ legacyRequiredMsg := by
  refine ⟨?_, by decide⟩
  by_cases h1 : s.requires2fa = true
  · simp [postAuth, h1]
  · have h2 : s.requires2sa = true := h.resolve_left h1
    have h1' : s.requires2fa = false := by
      cases hb : s.requires2fa
      · rfl
      · exact absurd hb h1
    simp [postAuth, h1', h2]

/-- C2 witness at a concrete strong-verification session. -/
theorem C2_witness :
    postAuth ⟨true, false, []⟩ true 0 "000000" (fun _ => true)
        (fun _ _ => true) (fun _ => true)
      = ([], .twoStepAuthRequired
          (if (Session.mk true false []).requires2fa then strongRequiredMsg
           else legacyRequiredMsg))
    ∧ strongRequiredMsg ≠ legacyRequiredMsg :=
  C2_challenge_raised_noninteractive ⟨true, false, []⟩ 0 "000000"
    (fun _ => true) (fun _ _ => true) (fun _ => true) (Or.inl rfl)

/-- C3: when a session requires both regimes, the interactive dispatch runs
the strong-verification flow: the result is exactly the 2FA notice followed
by `request_2fa`'s trace and outcome — an expression in which the device
list, the chosen index, the delivery oracle and the device-validation oracle
do not occur — and the trace contains no legacy-flow event, so the legacy
facet and flow are never consulted. -/
theorem C3_strong_precedence (s : Session) (ci : Nat) (code : String)
    (sendOk : Device → Bool) (valOk : Device → String → Bool)
    (v2fa : String → Bool)
    (h1 : s.requires2fa = true) (h2 : s.requires2sa = true) :
    postAuth s false ci code sendOk valOk v2fa
      = (.logInfo strongRequiredMsg :: (request_2fa code v2fa).1,
         flowToAuth s (request_2fa code v2fa).2)
    ∧ (postAuth s false ci code sendOk valOk v2fa).1.filter isLegacyConsult
        = [] := by
  refine ⟨by simp [postAuth, h1], ?_⟩
  cases hv : v2fa code <;>
    simp [postAuth, h1, request_2fa, hv, isLegacyConsult]

/-- C3 witness at a concrete session with both regime flags set. -/
theorem C3_witness :
    postAuth ⟨true, true, [⟨some "iPhone", none⟩]⟩ false 0 "123456"
        (fun _ => true) (fun _ _ => true) (fun _ => true)
      = (.logInfo strongRequiredMsg
           :: (request_2fa "123456" (fun _ => true)).1,
         flowToAuth ⟨true, true, [⟨some "iPhone", none⟩]⟩
           (request_2fa "123456" (fun _ => true)).2)
    ∧ (postAuth ⟨true, true, [⟨some "iPhone", none⟩]⟩ false 0 "123456"
        (fun _ => true) (fun _ _ => true) (fun _ => true)).1.filter isLegacyConsult
        = [] :=
  C3_strong_precedence ⟨true, true, [⟨some "iPhone", none⟩]⟩ 0 "123456"
    (fun _ => true) (fun _ _ => true) (fun _ => true) rfl rfl

/-- C9: when the first open call succeeds and the obtained session requires
neither verification regime, `authenticate_` returns that very session with
a trace containing only the debug log and the single open call: no prompt,
no verification operation, no change to the session. -/
theorem C9_already_authenticated_returned_unchanged (domain username : String)
    (password : Option String) (r2sa : Bool) (prompts : List String)
    (rest : List OpenResult) (s : Session) (ci : Nat) (code : String)
    (sendOk : Device → Bool) (valOk : Device → String → Bool)
    (v2fa : String → Bool)
    (h1 : s.requires2fa = false) (h2 : s.requires2sa = false) :
    authenticate_ domain username password r2sa prompts (.ok s :: rest)
        ci code sendOk valOk v2fa
      = ([.logDebug "Authenticating...",
          .openCall (firstOpenCall domain username password)],
         .returned s) := by
  simp [authenticate_, bootstrapLoop, postAuth, h1, h2]

/-- C9 witness at a concrete fully authenticated session. -/
theorem C9_witness :
    authenticate_ "icloud.com" "alice" (some "pw") false []
        [.ok sessionPlain] 0 "123456" (fun _ => true) (fun _ _ => true)
        (fun _ => true)
      = ([.logDebug "Authenticating...",
          .openCall (firstOpenCall "icloud.com" "alice" (some "pw"))],
         .returned sessionPlain) :=
  C9_already_authenticated_returned_unchanged "icloud.com" "alice"
    (some "pw") false [] [] sessionPlain 0 "123456" (fun _ => true)
    (fun _ _ => true) (fun _ => true) rfl rfl

end ICloudPD

namespace ICloudPD

/-- Is this a code-delivery (`send_verification_code`) call? -/
def isSendEvent : Event → Bool
  | .sendCode _ => true
  | _ => false

/-- The device menu never emits the code prompt. -/
lemma promptCode_not_mem_menuEvents (ds : List Device) :
    Event.promptCode ∉ menuEvents ds := by
  simp [menuEvents]

/-- The device menu never emits a code-delivery call. -/
lemma menuEvents_filter_send (ds : List Device) :
    (menuEvents ds).filter isSendEvent = [] := by
  simp [menuEvents, isSendEvent, List.filter_eq_nil_iff]

/-- A scripted index resolving to a real device is within the list. -/
lemma index_lt_of_getElem {ds : List Device} {ci : Nat} {d : Device}
    (hget : ds[ci]? = some d) : ci < ds.length := by
  rcases Nat.lt_or_ge ci ds.length with h | h
  · exact h
  · rw [List.getElem?_eq_none h] at hget
    cases hget

/-- C4: a failed delivery call in the legacy flow exits with status 1 before
any code prompt; a failed validation call exits with status 1 in the legacy
flow (both with a real device and with the synthetic entry) and in the strong
flow; each trace ends at the failure, so neither failure is retried. -/
theorem C4_failures_are_fatal :
    (∀ (s : Session) (ci : Nat) (code : String) (sendOk : Device → Bool)
        (valOk : Device → String → Bool) (d : Device),
      s.trustedDevices[ci]? = some d → ci ≠ s.trustedDevices.length →
      sendOk d = false →
      request_2sa s ci code sendOk valOk
        = (menuEvents s.trustedDevices ++ [.sendCode d, .logError failSendMsg],
           .exited 1)
      ∧ Event.promptCode ∉ (request_2sa s ci code sendOk valOk).1)
    ∧ (∀ (s : Session) (ci : Nat) (code : String) (sendOk : Device → Bool)
        (valOk : Device → String → Bool) (d : Device),
      s.trustedDevices[ci]? = some d → ci ≠ s.trustedDevices.length →
      sendOk d = true → valOk d code = false →
      (request_2sa s ci code sendOk valOk).2 = .exited 1)
    ∧ (∀ (s : Session) (ci : Nat) (code : String) (sendOk : Device → Bool)
        (valOk : Device → String → Bool),
      (if s.trustedDevices.length > 0 then ci else 0) = s.trustedDevices.length →
      valOk emptyDevice code = false →
      (request_2sa s ci code sendOk valOk).2 = .exited 1)
    ∧ (∀ (code : String) (v2fa : String → Bool), v2fa code = false →
      request_2fa code v2fa
        = ([.promptCode, .validate2fa code, .logError failVerifyMsg],
           .exited 1)) := by
  refine ⟨?_, ?_, ?_, ?_⟩
  · intro s ci code sendOk valOk d hget hne hsend
    have hlt : ci < s.trustedDevices.length := index_lt_of_getElem hget
    have hpos : 0 < s.trustedDevices.length :=
      Nat.lt_of_le_of_lt (Nat.zero_le _) hlt
    constructor
    · simp [request_2sa, hpos, hne, hget, hsend]
    · simp [request_2sa, hpos, hne, hget, hsend,
        promptCode_not_mem_menuEvents]
  · intro s ci code sendOk valOk d hget hne hsend hval
    have hlt : ci < s.trustedDevices.length := index_lt_of_getElem hget
    have hpos : 0 < s.trustedDevices.length :=
      Nat.lt_of_le_of_lt (Nat.zero_le _) hlt
    simp [request_2sa, hpos, hne, hget, hsend, hval]
  · intro s ci code sendOk valOk hidx hval
    rcases Nat.eq_zero_or_pos s.trustedDevices.length with hlen | hpos
    · simp [request_2sa, hlen, hval]
    · rw [if_pos hpos] at hidx
      simp [request_2sa, hpos, hidx, hval]
  · intro code v2fa hval
    simp [request_2fa, hval]

/-- A legacy session with one trusted device. -/
def oneDeviceSession : Session := ⟨false, true, [iphoneDevice]⟩

/-- A legacy session with an empty trusted-device list. -/
def emptySession2sa : Session := ⟨false, true, []⟩

/-- C4 witness: each fatal case at concrete inputs. -/
theorem C4_witness :
    (request_2sa oneDeviceSession 0 "111111" (fun _ => false) (fun _ _ => true)
        = (menuEvents oneDeviceSession.trustedDevices ++
            [.sendCode iphoneDevice, .logError failSendMsg], .exited 1)
      ∧ Event.promptCode ∉ (request_2sa oneDeviceSession 0 "111111"
          (fun _ => false) (fun _ _ => true)).1)
    ∧ (request_2sa oneDeviceSession 0 "111111" (fun _ => true)
        (fun _ _ => false)).2 = .exited 1
    ∧ (request_2sa emptySession2sa 0 "111111" (fun _ => true)
        (fun _ _ => false)).2 = .exited 1
    ∧ request_2fa "111111" (fun _ => false)
        = ([.promptCode, .validate2fa "111111", .logError failVerifyMsg],
           .exited 1) :=
  ⟨C4_failures_are_fatal.1 oneDeviceSession 0 "111111" (fun _ => false)
      (fun _ _ => true) iphoneDevice rfl (by decide) rfl,
   C4_failures_are_fatal.2.1 oneDeviceSession 0 "111111" (fun _ => true)
      (fun _ _ => false) iphoneDevice rfl (by decide) rfl rfl,
   C4_failures_are_fatal.2.2.1 emptySession2sa 0 "111111" (fun _ => true)
      (fun _ _ => false) rfl rfl,
   C4_failures_are_fatal.2.2.2 "111111" (fun _ => false) rfl⟩

/-- C5: choosing the synthetic index (= device-list length) produces a trace
with no delivery call at all; choosing a real device index makes the trace
continue after the menu with the delivery call to that device, and the code
prompt can only appear after it (immediately after when delivery succeeds,
never when it fails). -/
theorem C5_delivery_iff_real_device :
    (∀ (s : Session) (ci : Nat) (code : String) (sendOk : Device → Bool)
        (valOk : Device → String → Bool),
      ci = s.trustedDevices.length →
      ((request_2sa s ci code sendOk valOk).1.filter isSendEvent) = [])
    ∧ (∀ (s : Session) (ci : Nat) (code : String) (sendOk : Device → Bool)
        (valOk : Device → String → Bool) (d : Device),
      s.trustedDevices[ci]? = some d → ci ≠ s.trustedDevices.length →
      request_2sa s ci code sendOk valOk
        = (menuEvents s.trustedDevices ++ .sendCode d ::
            (if sendOk d then
              [.promptCode, .validateCode d code] ++
                (if valOk d code then [.logInfo info2saDone]
                 else [.logError failVerifyMsg])
             else [.logError failSendMsg]),
           if sendOk d then
             (if valOk d code then .ok else .exited 1)
           else .exited 1)) := by
  constructor
  · intro s ci code sendOk valOk hci
    rcases Nat.eq_zero_or_pos s.trustedDevices.length with hlen | hpos
    · rw [hlen] at hci
      cases hv : valOk emptyDevice code <;>
        simp [request_2sa, hlen, hci, hv, isSendEvent]
    · cases hv : valOk emptyDevice code <;>
        simp [request_2sa, hpos, hci, hv, isSendEvent,
          List.filter_append, menuEvents_filter_send]
  · intro s ci code sendOk valOk d hget hne
    have hlt : ci < s.trustedDevices.length := index_lt_of_getElem hget
    have hpos : 0 < s.trustedDevices.length :=
      Nat.lt_of_le_of_lt (Nat.zero_le _) hlt
    cases hs : sendOk d <;> cases hv : valOk d code <;>
      simp [request_2sa, hpos, hne, hget, hs, hv]

/-- C5 witness: synthetic choice delivers nothing; real-device choice
delivers to the device before the code prompt. -/
theorem C5_witness :
    ((request_2sa oneDeviceSession 1 "222222" (fun _ => true)
        (fun _ _ => true)).1.filter isSendEvent = [])
    ∧ request_2sa oneDeviceSession 0 "222222" (fun _ => true)
        (fun _ _ => true)
      = (menuEvents [iphoneDevice] ++
          [.sendCode iphoneDevice, .promptCode,
           .validateCode iphoneDevice "222222", .logInfo info2saDone],
         .ok) := by
  constructor
  · exact C5_delivery_iff_real_device.1 oneDeviceSession 1 "222222"
      (fun _ => true) (fun _ _ => true) (by decide)
  · have h := C5_delivery_iff_real_device.2 oneDeviceSession 0 "222222"
      (fun _ => true) (fun _ _ => true) iphoneDevice rfl (by decide)
    simpa [oneDeviceSession] using h

/-- C6: with an empty trusted-device list the legacy flow shows no menu,
performs no device-selection prompt and no delivery call; it prompts for the
code and invokes validation with the empty placeholder device. -/
theorem C6_empty_device_list (s : Session) (ci : Nat) (code : String)
    (sendOk : Device → Bool) (valOk : Device → String → Bool)
    (h : s.trustedDevices = []) :
    request_2sa s ci code sendOk valOk
      = ([.promptCode, .validateCode emptyDevice code] ++
          (if valOk emptyDevice code then [.logInfo info2saDone]
           else [.logError failVerifyMsg]),
         if valOk emptyDevice code then .ok else .exited 1) := by
  cases hv : valOk emptyDevice code <;> simp [request_2sa, h, hv]

/-- C6 witness at a concrete empty-device-list session; the selection
parameter is irrelevant. -/
theorem C6_witness :
    request_2sa emptySession2sa 5 "333333" (fun _ => true) (fun _ _ => true)
      = ([.promptCode, .validateCode emptyDevice "333333",
          .logInfo info2saDone], .ok) := by
  have h := C6_empty_device_list emptySession2sa 5 "333333" (fun _ => true)
    (fun _ _ => true) rfl
  simpa using h

end ICloudPD

namespace ICloudPD

/-- C10 witness: the argument-shifted retry call on a concrete run. -/
theorem C10_witness :
    ((bootstrapLoop "icloud.com" "alice" none ("pw1" :: [])
        (.err .noStoredPassword :: .ok sessionPlain :: [])).1.take 3
      = [.openCall (firstOpenCall "icloud.com" "alice" none), .promptPassword,
         .openCall (retryOpenCall "alice" "pw1")])
    ∧ retryOpenCall "alice" "pw1"
      = { domainArg := "alice", appleIdArg := "pw1", passwordArg := none }
    ∧ (∀ (d u p q : String), retryOpenCall u p ≠ firstOpenCall d u (some q)) :=
  C10_retry_call_shifts_arguments "icloud.com" "alice" none "pw1" []
    (.ok sessionPlain) []

end ICloudPD
